import Mathlib

/-!
Verification development for the RoastYourResume backend
(`src/backend/handler.py` and `src/backend/rag_pipeline.py`).

The backend is a single-request AWS Lambda pipeline:
parse request → download PDF → extract pages → chunk → embed/index →
retrieve context → generate roast → format response.

The shallow embedding below models the pure orchestration logic of
`lambda_handler` directly from the source.  The five external managed
capabilities (object storage download, PDF text extraction, the embedding
service behind the FAISS index, vector similarity search, and the
chat-completion model) are opaque in the source as well; they are passed in
as a record of functions (`Capabilities`), each returning `Except String`
to model the Python call either returning normally or raising.  The local
file system visible to the handler (the `/tmp` scratch file) is modelled as
the list of existing paths, threaded through the handler, so that the
temp-file cleanup behaviour is observable.  Wall-clock time
(`processing_time_ms`) is abstracted as a capability-provided number.
-/

namespace RoastYourResume

/-- A LangChain `Document`: extracted page content plus its source page
index (`rag_pipeline.py` uses `List[Document]` both for loaded pages and
for chunks). -/
structure Document where
  page_content : String
  page : Nat
deriving DecidableEq

/-- Result of `json.loads` on the request body, restricted to the three
fields the handler reads (`handler.py` lines 48-51): either the body is not
valid JSON (`json.JSONDecodeError`), or it is an object from which
`body.get` extracts each field as `Option String` (absent key gives
`none`). -/
inductive ParsedBody where
  | malformed
  | obj (s3_bucket s3_key request_id : Option String)
deriving DecidableEq

/-- Python truthiness of an optional string field, as used by
`if not all([s3_bucket, s3_key, request_id])` (`handler.py` line 54):
`None` and the empty string are falsy. -/
def truthy : Option String → Bool
  | none => false
  | some s => !(s == "")

/-- The `metadata` object of a success response (`handler.py` lines
136-142). -/
structure Metadata where
  chunks_processed : Nat
  pages_processed : Nat
  processing_time_ms : Nat
  model_used : String
  embedding_model : String
deriving DecidableEq

/-- JSON body of an API Gateway proxy response: either the success payload
or the error payload (`handler.py` lines 179-183 and 206-208). -/
inductive ResponseBody where
  | success (request_id roast : String) (metadata : Metadata)
  | error (message : String)
deriving DecidableEq

/-- API Gateway proxy response (`statusCode`, `headers`, `body`). -/
structure Response where
  statusCode : Nat
  headers : List (String × String)
  body : ResponseBody
deriving DecidableEq

/-- The fixed header set attached to every response (`handler.py` lines
173-178 and 200-205). -/
def cors_headers : List (String × String) :=
  [("Content-Type", "application/json"),
   ("Access-Control-Allow-Origin", "*"),
   ("Access-Control-Allow-Headers", "Content-Type,X-Api-Key"),
   ("Access-Control-Allow-Methods", "POST,OPTIONS")]

/-- `success_response` from `handler.py` lines 159-184. -/
def success_response (request_id : String) (roast : String)
    (metadata : Metadata) : Response :=
  { statusCode := 200
    headers := cors_headers
    body := ResponseBody.success request_id roast metadata }

/-- `error_response` from `handler.py` lines 187-209. -/
def error_response (status_code : Nat) (message : String) : Response :=
  { statusCode := status_code
    headers := cors_headers
    body := ResponseBody.error message }

/-- The opaque external capabilities the pipeline calls, each modelled as a
function returning `Except String` (Lean `.error e` stands for the Python
call raising an exception whose string form is `e`):
`parse` is `json.loads` restricted to the three fields read;
`download` is `s3_client.download_file`;
`loadPdf` is `PyPDFLoader(path).load()`;
`embed` is the Bedrock embedding call made by `FAISS.from_documents`
(model id, chunks, request id);
`search` is `vectorstore.similarity_search` (the store holds the chunk
list it was built from);
`complete` is `ChatBedrock(...).invoke` (model id, system prompt, user
prompt) returning `response.content`;
`removeFile` is `os.remove`;
`elapsedMs` abstracts the `time.time()` difference of `handler.py` line
122. -/
structure Capabilities where
  parse : String → ParsedBody
  download : String → String → String → Except String Unit
  loadPdf : String → Except String (List Document)
  embed : String → List Document → String → Except String Unit
  search : List Document → String → Nat → Except String (List Document)
  complete : String → String → String → Except String String
  removeFile : String → Except String Unit
  elapsedMs : Nat

/-- Chunk size passed to `RecursiveCharacterTextSplitter`
(`rag_pipeline.py` line 46). -/
def chunk_size : Nat := 2000

/-- Chunk overlap passed to `RecursiveCharacterTextSplitter`
(`rag_pipeline.py` line 47).  The overlap only controls how adjacent
splits are re-merged; the merge step recombines a non-empty list of splits
into a non-empty list of chunks, so it is not modelled further below. -/
def chunk_overlap : Nat := 100

/-- Separator hierarchy passed to `RecursiveCharacterTextSplitter`
(`rag_pipeline.py` line 49). -/
def separators : List String := ["\n\n", "\n", " ", ""]

/-- Modelled from the spec: the arbitrary-character-boundary fallback of
the recursive text splitter (the splitter library itself is an external
dependency, not part of this repository).  When no separator helps, the
text is cut into consecutive pieces of at most `maxSize` characters.  The
first argument after `maxSize` is recursion fuel (the text length
suffices). -/
def hardSplit (maxSize : Nat) : Nat → String → List String
  | 0, t => [t]
  | fuel + 1, t =>
    if t.length ≤ maxSize ∨ maxSize = 0 then [t]
    else t.take maxSize :: hardSplit maxSize fuel (t.drop maxSize)

/-- Modelled from the spec: the recursive character splitting algorithm of
section 4.4 ("attempt to split on paragraph boundaries first, then line
boundaries, then spaces, then arbitrary character boundaries, in that
preference order, to keep each chunk at most max_size").  The splitter
library (`RecursiveCharacterTextSplitter`) is an external dependency whose
source is not part of this repository; this model follows the spec's
description: text that already fits is one chunk, otherwise the first
applicable separator splits it and each piece is split recursively with
the remaining separators, the empty separator meaning arbitrary character
boundaries. -/
def splitRecursive (maxSize : Nat) : List String → String → List String
  | [], t => hardSplit maxSize t.length t
  | sep :: rest, t =>
    if t.length ≤ maxSize then [t]
    else if sep = "" then hardSplit maxSize t.length t
    else
      match t.splitOn sep with
      | [] => [t]
      | p :: ps => (p :: ps).flatMap (splitRecursive maxSize rest)

/-- `chunk_text` from `rag_pipeline.py` lines 35-54: split every page with
the recursive splitter (chunk size 2000, separators as configured), each
chunk inheriting the page index of its source page
(`text_splitter.split_documents(documents)`). -/
def chunk_text (documents : List Document) : List Document :=
  documents.flatMap (fun d =>
    (splitRecursive chunk_size separators d.page_content).map
      (fun t => { page_content := t, page := d.page }))

/-- Model id of the embedding capability (`rag_pipeline.py` line 71). -/
def embedding_model_id : String := "amazon.titan-embed-text-v1"

/-- Model id passed to `ChatBedrock` (`rag_pipeline.py` line 115). -/
def chat_model_id : String := "us.anthropic.claude-3-5-sonnet-20241022-v2:0"

/-- `load_pdf` from `rag_pipeline.py` lines 19-32: delegates to the PDF
extraction capability. -/
def load_pdf (cap : Capabilities) (file_path : String) :
    Except String (List Document) :=
  cap.loadPdf file_path

/-- `initialize_vectorstore` from `rag_pipeline.py` lines 57-81: embeds the
chunks with the Titan model and builds the in-memory FAISS index over
them.  The index is modelled as the chunk list it stores; an embedding
failure is the call raising. -/
def initialize_vectorstore (cap : Capabilities) (chunks : List Document)
    (request_id : String) : Except String (List Document) :=
  match cap.embed embedding_model_id chunks request_id with
  | Except.ok _ => Except.ok chunks
  | Except.error e => Except.error e

/-- `retrieve_context` from `rag_pipeline.py` lines 84-98: top-k similarity
search against the index. -/
def retrieve_context (cap : Capabilities) (vectorstore : List Document)
    (query : String) (k : Nat) : Except String (List Document) :=
  cap.search vectorstore query k

/-- `extract_full_text` from `rag_pipeline.py` lines 165-176. -/
def extract_full_text (documents : List Document) : String :=
  String.intercalate "\n\n" (documents.map Document.page_content)

/-- The fixed Gen Z system prompt of `generate_roast` (`rag_pipeline.py`
lines 124-138). -/
def system_prompt : String :=
  "You are a witty Gen Z resume critic who keeps it real. Use Gen Z slang naturally (words like \"cooked\", \"bro is...\", \"you\x27re cooked\", \"fr fr\", \"no cap\", \"mid\", \"it\x27s giving...\", etc).\n\nCRITICAL CONTEXT: The current year is 2025/2026. When reviewing work experience, anything from 2023-2026 is recent and current. DO NOT refer to 2024 or 2025 as \"future\" - they are NOW or the recent past. Any content in brackets [] is for your information only and should not be displayed in your response.\n\nYour job is to roast resumes with brutal honesty while providing actionable feedback.\nBe sarcastic but constructive. Point out clichés, buzzwords, formatting issues, and weak accomplishments.\n\nStructure your roast in sections (put in subtitles):\n1. **Summary (Roast)** - Overall vibe check (2-3 sentences)\n2. **Experience Critique** - Call out weak bullets, buzzwords, vague accomplishments\n3. **Skills Assessment** - Roast generic skills, missing technical depth\n4. **Format & Style** - Comment on layout, length, readability\n\nKeep the vibe casual but insightful - like a brutally honest friend reviewing their homie\x27s resume.\nEnd with 2-3 concrete actionable tips to actually improve the resume."

/-- The user prompt of `generate_roast` (`rag_pipeline.py` lines 141-149):
the resume text truncated to its first 3000 characters, followed by the
retrieved context. -/
def user_prompt (context : String) (resume_text : String) : String :=
  "Here\x27s a resume that needs your honest roasting:\n\nRESUME CONTENT:\n"
    ++ resume_text.take 3000
    ++ "\n\nRELEVANT SECTIONS (from vector search):\n"
    ++ context
    ++ "\n\nRoast this resume with your signature Gen Z style. Be brutally honest but constructive."

/-- `generate_roast` from `rag_pipeline.py` lines 101-162: one call to the
chat-completion capability with the fixed model id and prompts; the
content is returned verbatim (no emptiness check, no post-processing). -/
def generate_roast (cap : Capabilities) (context : String)
    (resume_text : String) : Except String String :=
  cap.complete chat_model_id system_prompt (user_prompt context resume_text)

/-- The three fixed retrieval queries (`handler.py` lines 100-104). -/
def queries : List String :=
  ["work experience and accomplishments",
   "skills and qualifications",
   "formatting and presentation issues"]

/-- The sequential retrieval loop of `handler.py` lines 106-109: for each
query in order, `retrieve_context` with k = 3, extending the accumulated
list; an exception anywhere aborts the loop (and is caught by the
handler's catch-all). -/
def runQueries (cap : Capabilities) (vectorstore : List Document) :
    List String → Except String (List Document)
  | [] => Except.ok []
  | q :: qs =>
    match retrieve_context cap vectorstore q 3 with
    | Except.error e => Except.error e
    | Except.ok docs =>
      match runQueries cap vectorstore qs with
      | Except.error e => Except.error e
      | Except.ok rest => Except.ok (docs ++ rest)

/-- The truncation `all_context_docs[:5]` of `handler.py` line 114: only
the first five combined retrieval results are used. -/
def used_context (all_context_docs : List Document) : List Document :=
  all_context_docs.take 5

/-- The context string of `handler.py` lines 112-115: the first five
combined retrieval results, each labelled with its section number, joined
by blank lines. -/
def contextText (all_context_docs : List Document) : String :=
  String.intercalate "\n\n"
    ((used_context all_context_docs).enum.map
      (fun p => "Section " ++ toString (p.1 + 1) ++ ":\n" ++ p.2.page_content))

/-- An API Gateway proxy event, restricted to the only field the handler
reads: `event.get('body', '\x7b\x7d')` (`handler.py` line 48).  `none`
models an event without a `body` key. -/
structure Event where
  body : Option String
deriving DecidableEq

/-- `lambda_handler` from `handler.py` lines 25-156, threading the scratch
file system (list of existing `/tmp` paths) through the run.  Each
capability call that raises lands in the handler that catches it in the
source: the download has its own `try` (line 71), everything else falls
through to the top-level catch-all (line 148); `json.JSONDecodeError` has
its dedicated clause (line 145).  The cleanup block (lines 124-130) runs
only after a successful roast generation, checks existence first, and
swallows a failing `os.remove`. -/
def lambda_handler (cap : Capabilities) (fs : List String) (event : Event) :
    Response × List String :=
  match cap.parse (event.body.getD "\x7b\x7d") with
  | ParsedBody.malformed => (error_response 400 "Invalid JSON in request body", fs)
  | ParsedBody.obj s3_bucket s3_key request_id =>
    if !(truthy s3_bucket && truthy s3_key && truthy request_id) then
      (error_response 400 "Missing required fields: s3_bucket, s3_key, request_id", fs)
    else
      let bucket := s3_bucket.getD ""
      let key := s3_key.getD ""
      let rid := request_id.getD ""
      let pdf_path := "/tmp/" ++ rid ++ ".pdf"
      match cap.download bucket key pdf_path with
      | Except.error e =>
        (error_response 500 ("Failed to download PDF from S3: " ++ e), fs)
      | Except.ok _ =>
        let fs1 := pdf_path :: fs
        match load_pdf cap pdf_path with
        | Except.error e =>
          (error_response 500 ("Internal server error: " ++ e), fs1)
        | Except.ok documents =>
          if documents.isEmpty then
            (error_response 400 "PDF appears to be empty or unreadable", fs1)
          else
            let full_text := extract_full_text documents
            let chunks := chunk_text documents
            match initialize_vectorstore cap chunks rid with
            | Except.error e =>
              (error_response 500 ("Internal server error: " ++ e), fs1)
            | Except.ok vectorstore =>
              match runQueries cap vectorstore queries with
              | Except.error e =>
                (error_response 500 ("Internal server error: " ++ e), fs1)
              | Except.ok all_context_docs =>
                let context_text := contextText all_context_docs
                match generate_roast cap context_text full_text with
                | Except.error e =>
                  (error_response 500 ("Internal server error: " ++ e), fs1)
                | Except.ok roast =>
                  let fs2 :=
                    if fs1.contains pdf_path then
                      match cap.removeFile pdf_path with
                      | Except.ok _ => fs1.erase pdf_path
                      | Except.error _ => fs1
                    else fs1
                  (success_response rid roast
                    { chunks_processed := chunks.length
                      pages_processed := documents.length
                      processing_time_ms := cap.elapsedMs
                      model_used := "claude-3-5-sonnet-v2"
                      embedding_model := "titan-embed-text-v1" }, fs2)

/-- A one-page document used as concrete input in witnesses and
counterexamples. -/
def docS : Document := { page_content := "resume text", page := 0 }

/-- Concrete capability record under which every pipeline step succeeds:
the body parses to a complete request, the download and embedding succeed,
extraction yields the one-page document `docS`, every similarity search
returns no results, and the completion returns the text "roast". -/
def capS : Capabilities :=
  { parse := fun _ => ParsedBody.obj (some "b") (some "k") (some "r1")
    download := fun _ _ _ => Except.ok ()
    loadPdf := fun _ => Except.ok [docS]
    embed := fun _ _ _ => Except.ok ()
    search := fun _ _ _ => Except.ok []
    complete := fun _ _ _ => Except.ok "roast"
    removeFile := fun _ => Except.ok ()
    elapsedMs := 0 }

/-- Concrete event whose body is present. -/
def evS : Event := { body := some "request body" }

/-- Metadata of the successful `capS` run. -/
def mdS : Metadata :=
  { chunks_processed := 1
    pages_processed := 1
    processing_time_ms := 0
    model_used := "claude-3-5-sonnet-v2"
    embedding_model := "titan-embed-text-v1" }

/-- Capabilities under which the PDF extractor produces zero pages. -/
def capEmptyPdf : Capabilities :=
  { capS with loadPdf := fun _ => Except.ok [] }

/-- Capabilities under which the PDF extractor raises (the downloaded file
cannot be parsed as a PDF). -/
def capUnparseablePdf : Capabilities :=
  { capS with loadPdf := fun _ => Except.error "PdfReadError: EOF marker not found" }

/-- Capabilities under which the chat completion returns empty content. -/
def capEmptyCompletion : Capabilities :=
  { capS with complete := fun _ _ _ => Except.ok "" }

/-- Capabilities under which the chat completion raises. -/
def capFailingCompletion : Capabilities :=
  { capS with complete := fun _ _ _ => Except.error "Bedrock invocation failed" }

/-- Capabilities whose similarity search returns the same single chunk for
every query. -/
def capDupSearch : Capabilities :=
  { capS with search := fun _ _ _ => Except.ok [docS] }

/-- Capabilities whose JSON parse maps the empty object literal to an
object with no fields, as `json.loads` does. -/
def capEmptyObj : Capabilities :=
  { capS with parse := fun s =>
      if s = "\x7b\x7d" then ParsedBody.obj none none none else ParsedBody.malformed }

/-- Capabilities whose parsed request body is missing `s3_bucket`. -/
def capMissingField : Capabilities :=
  { capS with parse := fun _ => ParsedBody.obj none (some "k") (some "r1") }

/-- Truthiness of an optional string field holds exactly for a present,
non-empty string. -/
lemma truthy_eq_true_iff (o : Option String) :
    truthy o = true ↔ ∃ s, o = some s ∧ s ≠ "" := by
  cases o with
  | none => simp [truthy]
  | some s => simp [truthy]

/-- The arbitrary-character fallback splitter never returns an empty list
of pieces. -/
lemma hardSplit_ne_nil (maxSize fuel : Nat) (t : String) :
    hardSplit maxSize fuel t ≠ [] := by
  cases fuel with
  | zero => simp [hardSplit]
  | succ n =>
    simp only [hardSplit]
    split
    · simp
    · simp

/-- The recursive splitter never returns an empty list of pieces. -/
lemma splitRecursive_ne_nil (maxSize : Nat) (seps : List String) (t : String) :
    splitRecursive maxSize seps t ≠ [] := by
  induction seps generalizing t with
  | nil => exact hardSplit_ne_nil maxSize t.length t
  | cons s rest ih =>
    simp only [splitRecursive]
    split
    · simp
    · split
      · exact hardSplit_ne_nil maxSize t.length t
      · split
        · simp
        · rename_i p ps hsplit
          cases hfp : splitRecursive maxSize rest p with
          | nil => exact absurd hfp (ih p)
          | cons a l => simp [List.flatMap, hfp]

/-- The context string only depends on the first five combined retrieval
results. -/
lemma contextText_take_five (all_context_docs : List Document) :
    contextText all_context_docs = contextText (used_context all_context_docs) := by
  simp [contextText, used_context, List.take_take]

/-- Inversion of a successful handler run: every run whose response body is
a success payload arises from a request that parsed with three truthy
fields, a successful download, a non-empty extraction, a successful
embedding, retrieval, and completion, and its metadata is exactly the
record built at `handler.py` lines 136-142. -/
lemma handler_success_inversion (cap : Capabilities) (fs : List String)
    (event : Event) (rid roast : String) (md : Metadata)
    (h : ((lambda_handler cap fs event).1).body = ResponseBody.success rid roast md) :
    ∃ sb sk documents ctx,
      cap.parse (event.body.getD "\x7b\x7d") = ParsedBody.obj (some sb) (some sk) (some rid) ∧
      sb ≠ "" ∧ sk ≠ "" ∧ rid ≠ "" ∧
      cap.download sb sk ("/tmp/" ++ rid ++ ".pdf") = Except.ok () ∧
      cap.loadPdf ("/tmp/" ++ rid ++ ".pdf") = Except.ok documents ∧
      documents ≠ [] ∧
      cap.embed embedding_model_id (chunk_text documents) rid = Except.ok () ∧
      runQueries cap (chunk_text documents) queries = Except.ok ctx ∧
      cap.complete chat_model_id system_prompt
        (user_prompt (contextText ctx) (extract_full_text documents)) = Except.ok roast ∧
      md = { chunks_processed := (chunk_text documents).length
             pages_processed := documents.length
             processing_time_ms := cap.elapsedMs
             model_used := "claude-3-5-sonnet-v2"
             embedding_model := "titan-embed-text-v1" } := by
  unfold lambda_handler at h
  split at h
  · simp [error_response] at h
  · rename_i s3_bucket s3_key request_id hparse
    split at h
    · simp [error_response] at h
    · rename_i hfields
      obtain ⟨⟨hsb, hsk⟩, hrid⟩ :
          (truthy s3_bucket = true ∧ truthy s3_key = true) ∧ truthy request_id = true := by
        simpa [Bool.and_eq_true] using hfields
      obtain ⟨sb, hsbEq, hsbNe⟩ := (truthy_eq_true_iff _).mp hsb
      obtain ⟨sk, hskEq, hskNe⟩ := (truthy_eq_true_iff _).mp hsk
      obtain ⟨r, hridEq, hridNe⟩ := (truthy_eq_true_iff _).mp hrid
      subst hsbEq hskEq hridEq
      dsimp only [Option.getD] at h
      split at h
      · simp [error_response] at h
      · rename_i u hdl
        split at h
        · simp [error_response] at h
        · rename_i documents hload
          split at h
          · simp [error_response] at h
          · rename_i hempty
            split at h
            · simp [error_response] at h
            · rename_i vectorstore hvs
              split at h
              · simp [error_response] at h
              · rename_i ctx hq
                split at h
                · simp [error_response] at h
                · rename_i roast2 hroast
                  simp only [success_response, ResponseBody.success.injEq] at h
                  obtain ⟨hr1, hr2, hr3⟩ := h
                  subst hr1 hr2 hr3
                  simp only [load_pdf] at hload
                  unfold initialize_vectorstore at hvs
                  split at hvs
                  · rename_i u2 hemb
                    injection hvs with hvs2
                    subst hvs2
                    refine ⟨sb, sk, documents, ctx, hparse, hsbNe, hskNe, hridNe,
                      ?_, ?_, ?_, ?_, ?_, ?_, rfl⟩
                    · simpa using hdl
                    · simpa using hload
                    · simpa using hempty
                    · simpa using hemb
                    · simpa using hq
                    · simpa using hroast
                  · simp at hvs

/-- C1 counterexample: the original claim says the scratch PDF is removed
on every failure path that proceeds past a successful download.  Under
`capEmptyPdf` the download succeeds and extraction yields zero pages; the
handler returns the 400 response while the scratch file `/tmp/r1.pdf` is
still present in the file system it returns. -/
theorem C1_temp_file_counterexample :
    ((lambda_handler capEmptyPdf [] evS).1).statusCode = 400 ∧
    (lambda_handler capEmptyPdf [] evS).2 = ["/tmp/r1.pdf"] := by
  decide

/-- C1 (amended): the scratch PDF is removed before the response only on
the success path, best-effort: after a fully successful pipeline run, a
successful `os.remove` leaves the file system as it was before the
request, and a failing `os.remove` is swallowed — the handler still
returns the 200 success response with the file left in place; failure
paths perform no cleanup. -/
theorem C1_temp_file_cleanup (cap : Capabilities) (fs : List String) (event : Event)
    (sb sk rid : String) (documents ctx : List Document) (roast : String)
    (hparse : cap.parse (event.body.getD "\x7b\x7d") = ParsedBody.obj (some sb) (some sk) (some rid))
    (hsb : sb ≠ "") (hsk : sk ≠ "") (hrid : rid ≠ "")
    (hdl : cap.download sb sk ("/tmp/" ++ rid ++ ".pdf") = Except.ok ())
    (hload : cap.loadPdf ("/tmp/" ++ rid ++ ".pdf") = Except.ok documents)
    (hne : documents ≠ [])
    (hemb : cap.embed embedding_model_id (chunk_text documents) rid = Except.ok ())
    (hq : runQueries cap (chunk_text documents) queries = Except.ok ctx)
    (hcomp : cap.complete chat_model_id system_prompt
      (user_prompt (contextText ctx) (extract_full_text documents)) = Except.ok roast) :
    (cap.removeFile ("/tmp/" ++ rid ++ ".pdf") = Except.ok () →
      (lambda_handler cap fs event).2 = fs ∧
      ((lambda_handler cap fs event).1).statusCode = 200) ∧
    (∀ e, cap.removeFile ("/tmp/" ++ rid ++ ".pdf") = Except.error e →
      (lambda_handler cap fs event).2 = ("/tmp/" ++ rid ++ ".pdf") :: fs ∧
      ((lambda_handler cap fs event).1).statusCode = 200) := by
  have hsb2 : (sb == "") = false := by simp [hsb]
  have hsk2 : (sk == "") = false := by simp [hsk]
  have hrid2 : (rid == "") = false := by simp [hrid]
  have hne2 : documents.isEmpty = false := by
    cases documents with
    | nil => exact absurd rfl hne
    | cons a l => rfl
  constructor
  · intro hrem
    simp [lambda_handler, hparse, truthy, hsb2, hsk2, hrid2, hdl, load_pdf, hload, hne2,
      initialize_vectorstore, hemb, hq, generate_roast, hcomp, hrem, success_response]
  · intro e hrem
    simp [lambda_handler, hparse, truthy, hsb2, hsk2, hrid2, hdl, load_pdf, hload, hne2,
      initialize_vectorstore, hemb, hq, generate_roast, hcomp, hrem, success_response]

/-- Witness for C1: under `capS` the whole pipeline and the removal
succeed, and the returned file system is empty again with a 200 status. -/
theorem C1_temp_file_cleanup_witness :
    (lambda_handler capS [] evS).2 = [] ∧
    ((lambda_handler capS [] evS).1).statusCode = 200 :=
  (C1_temp_file_cleanup capS [] evS "b" "k" "r1" [docS] [] "roast"
    rfl (by decide) (by decide) (by decide) rfl rfl (by decide) rfl rfl rfl).1 rfl

/-- C2 counterexample: the original claim says an unparseable downloaded
file yields status 400, never a 500.  Under `capUnparseablePdf` the
extractor raises; the exception reaches the top-level catch-all and the
handler returns a 500 internal-server-error response. -/
theorem C2_unreadable_counterexample :
    (lambda_handler capUnparseablePdf [] evS).1 =
      error_response 500 "Internal server error: PdfReadError: EOF marker not found" := by
  decide

/-- C2 (amended): a downloaded document whose extraction produces zero
pages yields status 400 ("empty or unreadable"), but a file that cannot be
parsed (the extractor raising) is caught by the generic handler and yields
status 500, not 400. -/
theorem C2_zero_pages_400 (cap : Capabilities) (fs : List String) (event : Event)
    (sb sk rid : String)
    (hparse : cap.parse (event.body.getD "\x7b\x7d") = ParsedBody.obj (some sb) (some sk) (some rid))
    (hsb : sb ≠ "") (hsk : sk ≠ "") (hrid : rid ≠ "")
    (hdl : cap.download sb sk ("/tmp/" ++ rid ++ ".pdf") = Except.ok ()) :
    (cap.loadPdf ("/tmp/" ++ rid ++ ".pdf") = Except.ok [] →
      (lambda_handler cap fs event).1 =
        error_response 400 "PDF appears to be empty or unreadable") ∧
    (∀ e, cap.loadPdf ("/tmp/" ++ rid ++ ".pdf") = Except.error e →
      (lambda_handler cap fs event).1 =
        error_response 500 ("Internal server error: " ++ e)) := by
  have hsb2 : (sb == "") = false := by simp [hsb]
  have hsk2 : (sk == "") = false := by simp [hsk]
  have hrid2 : (rid == "") = false := by simp [hrid]
  constructor
  · intro hload
    simp [lambda_handler, hparse, truthy, hsb2, hsk2, hrid2, hdl, load_pdf, hload]
  · intro e hload
    simp [lambda_handler, hparse, truthy, hsb2, hsk2, hrid2, hdl, load_pdf, hload]

/-- Witness for C2: under `capEmptyPdf` extraction yields zero pages and
the handler returns the 400 empty-or-unreadable response. -/
theorem C2_zero_pages_400_witness :
    (lambda_handler capEmptyPdf [] evS).1 =
      error_response 400 "PDF appears to be empty or unreadable" :=
  (C2_zero_pages_400 capEmptyPdf [] evS "b" "k" "r1"
    rfl (by decide) (by decide) (by decide) rfl).1 rfl

/-- C3 counterexample: the original claim says an empty completion is
never returned as a successful roast.  Under `capEmptyCompletion` the
completion returns empty content and the handler returns a 200 success
response whose roast is the empty string. -/
theorem C3_empty_completion_counterexample :
    ((lambda_handler capEmptyCompletion [] evS).1).statusCode = 200 ∧
    ((lambda_handler capEmptyCompletion [] evS).1).body =
      ResponseBody.success "r1" "" mdS := by
  decide

/-- C3 (amended): if the chat-completion capability raises, the pipeline
error is caught by the generic handler and surfaced as a 500 server-side
error; but the content the capability returns — including empty content —
is returned verbatim as a successful roast with status 200. -/
theorem C3_generation_error_500 (cap : Capabilities) (fs : List String) (event : Event)
    (sb sk rid : String) (documents ctx : List Document)
    (hparse : cap.parse (event.body.getD "\x7b\x7d") = ParsedBody.obj (some sb) (some sk) (some rid))
    (hsb : sb ≠ "") (hsk : sk ≠ "") (hrid : rid ≠ "")
    (hdl : cap.download sb sk ("/tmp/" ++ rid ++ ".pdf") = Except.ok ())
    (hload : cap.loadPdf ("/tmp/" ++ rid ++ ".pdf") = Except.ok documents)
    (hne : documents ≠ [])
    (hemb : cap.embed embedding_model_id (chunk_text documents) rid = Except.ok ())
    (hq : runQueries cap (chunk_text documents) queries = Except.ok ctx) :
    (∀ e, cap.complete chat_model_id system_prompt
        (user_prompt (contextText ctx) (extract_full_text documents)) = Except.error e →
      (lambda_handler cap fs event).1 =
        error_response 500 ("Internal server error: " ++ e)) ∧
    (∀ roast, cap.complete chat_model_id system_prompt
        (user_prompt (contextText ctx) (extract_full_text documents)) = Except.ok roast →
      ((lambda_handler cap fs event).1).statusCode = 200 ∧
      ((lambda_handler cap fs event).1).body = ResponseBody.success rid roast
        { chunks_processed := (chunk_text documents).length
          pages_processed := documents.length
          processing_time_ms := cap.elapsedMs
          model_used := "claude-3-5-sonnet-v2"
          embedding_model := "titan-embed-text-v1" }) := by
  have hsb2 : (sb == "") = false := by simp [hsb]
  have hsk2 : (sk == "") = false := by simp [hsk]
  have hrid2 : (rid == "") = false := by simp [hrid]
  have hne2 : documents.isEmpty = false := by
    cases documents with
    | nil => exact absurd rfl hne
    | cons a l => rfl
  constructor
  · intro e hcomp
    simp [lambda_handler, hparse, truthy, hsb2, hsk2, hrid2, hdl, load_pdf, hload, hne2,
      initialize_vectorstore, hemb, hq, generate_roast, hcomp]
  · intro roast hcomp
    simp [lambda_handler, hparse, truthy, hsb2, hsk2, hrid2, hdl, load_pdf, hload, hne2,
      initialize_vectorstore, hemb, hq, generate_roast, hcomp, success_response]

/-- Witness for C3: under `capFailingCompletion` the completion raises and
the handler returns the 500 internal-server-error response. -/
theorem C3_generation_error_500_witness :
    (lambda_handler capFailingCompletion [] evS).1 =
      error_response 500 ("Internal server error: " ++ "Bedrock invocation failed") :=
  (C3_generation_error_500 capFailingCompletion [] evS "b" "k" "r1" [docS] []
    rfl (by decide) (by decide) (by decide) rfl rfl (by decide) rfl rfl).1
    "Bedrock invocation failed" rfl

/-- C4: every successful response reports `metadata.chunks_processed`
equal to the length of the chunk sequence the Chunker produced for the
extracted document, and `metadata.pages_processed` equal to the number of
page records the Text Extractor produced. -/
theorem C4_metadata_round_trip (cap : Capabilities) (fs : List String) (event : Event)
    (rid roast : String) (md : Metadata)
    (h : ((lambda_handler cap fs event).1).body = ResponseBody.success rid roast md) :
    ∃ documents : List Document,
      cap.loadPdf ("/tmp/" ++ rid ++ ".pdf") = Except.ok documents ∧
      md.chunks_processed = (chunk_text documents).length ∧
      md.pages_processed = documents.length := by
  obtain ⟨sb, sk, documents, ctx, hparse, hsb, hsk, hrid, hdl, hload, hne, hemb, hq, hcomp, hmd⟩ :=
    handler_success_inversion cap fs event rid roast md h
  exact ⟨documents, hload, by rw [hmd], by rw [hmd]⟩

/-- Witness for C4: the successful `capS` run reports one chunk and one
page for the one-page document `docS`. -/
theorem C4_metadata_round_trip_witness :
    ∃ documents : List Document,
      capS.loadPdf ("/tmp/" ++ "r1" ++ ".pdf") = Except.ok documents ∧
      mdS.chunks_processed = (chunk_text documents).length ∧
      mdS.pages_processed = documents.length :=
  C4_metadata_round_trip capS [] evS "r1" "roast" mdS (by decide)

/-- C5: the combined retrieval result list used to build the prompt
context is truncated to its first five entries before use, so at most five
entries reach the context, whatever the per-query result count or number
of queries produced the combined list. -/
theorem C5_context_at_most_five (all_context_docs : List Document) :
    (used_context all_context_docs).length ≤ 5 ∧
    contextText all_context_docs = contextText (used_context all_context_docs) := by
  constructor
  · simp [used_context, List.length_take]
  · exact contextText_take_five all_context_docs

/-- C6: the retriever issues the three fixed queries in order with k = 3,
and when each query returns a result list the combined list is exactly the
concatenation of the per-query lists in query order — no deduplication by
content — and the context construction uses only its first five entries. -/
theorem C6_concatenation_in_query_order (cap : Capabilities) (vectorstore : List Document)
    (f : String → List Document)
    (hsearch : ∀ q ∈ queries, cap.search vectorstore q 3 = Except.ok (f q)) :
    runQueries cap vectorstore queries =
      Except.ok (f "work experience and accomplishments"
        ++ f "skills and qualifications"
        ++ f "formatting and presentation issues") ∧
    contextText (f "work experience and accomplishments"
        ++ f "skills and qualifications"
        ++ f "formatting and presentation issues") =
      contextText (used_context (f "work experience and accomplishments"
        ++ f "skills and qualifications"
        ++ f "formatting and presentation issues")) := by
  have h1 := hsearch "work experience and accomplishments" (by simp [queries])
  have h2 := hsearch "skills and qualifications" (by simp [queries])
  have h3 := hsearch "formatting and presentation issues" (by simp [queries])
  constructor
  · simp [runQueries, retrieve_context, queries, h1, h2, h3]
  · exact contextText_take_five _

/-- Witness for C6: a search capability returning the same single chunk
for every query produces that chunk three times in the combined list —
duplicates across queries are preserved. -/
theorem C6_concatenation_in_query_order_witness :
    runQueries capDupSearch [docS] queries = Except.ok [docS, docS, docS] := by
  have h := C6_concatenation_in_query_order capDupSearch [docS] (fun _ => [docS])
    (fun q _ => rfl)
  simpa using h.1

/-- C7: whenever the parsed request body is missing any of `s3_bucket`,
`s3_key`, `request_id` or has it empty, the handler returns status 400
with the message naming the missing-fields contract, with the file system
untouched (no download has happened). -/
theorem C7_missing_fields_400 (cap : Capabilities) (fs : List String) (event : Event)
    (sb sk rid : Option String)
    (hparse : cap.parse (event.body.getD "\x7b\x7d") = ParsedBody.obj sb sk rid)
    (hmiss : truthy sb = false ∨ truthy sk = false ∨ truthy rid = false) :
    lambda_handler cap fs event =
      (error_response 400 "Missing required fields: s3_bucket, s3_key, request_id", fs) := by
  unfold lambda_handler
  rw [hparse]
  rcases hmiss with h | h | h <;> simp [h]

/-- Witness for C7: a parsed body without `s3_bucket` yields the 400
missing-fields response and leaves the file system unchanged. -/
theorem C7_missing_fields_400_witness :
    lambda_handler capMissingField [] evS =
      (error_response 400 "Missing required fields: s3_bucket, s3_key, request_id", []) :=
  C7_missing_fields_400 capMissingField [] evS none (some "k") (some "r1") rfl (Or.inl rfl)

/-- C8: a non-empty document — at least one page record — always produces
at least one chunk (the splitter model is spec-modelled, see
`splitRecursive`). -/
theorem C8_nonempty_document_has_chunk (documents : List Document)
    (h : documents ≠ []) : 1 ≤ (chunk_text documents).length := by
  obtain ⟨d, rest, rfl⟩ : ∃ d rest, documents = d :: rest := by
    cases documents with
    | nil => exact absurd rfl h
    | cons d rest => exact ⟨d, rest, rfl⟩
  have h1 : 0 < (splitRecursive chunk_size separators d.page_content).length :=
    List.length_pos.mpr (splitRecursive_ne_nil chunk_size separators d.page_content)
  have h2 : (chunk_text (d :: rest)).length =
      (splitRecursive chunk_size separators d.page_content).length +
        (chunk_text rest).length := by
    simp [chunk_text, List.flatMap]
  omega

/-- Witness for C8: the one-page document `docS` produces at least one
chunk. -/
theorem C8_nonempty_document_has_chunk_witness :
    1 ≤ (chunk_text [docS]).length :=
  C8_nonempty_document_has_chunk [docS] (by decide)

/-- C9: every successful response reports the fixed metadata strings
"claude-3-5-sonnet-v2" and "titan-embed-text-v1", which differ from the
model identifiers actually passed to the chat-completion and embedding
capabilities. -/
theorem C9_metadata_model_constants (cap : Capabilities) (fs : List String) (event : Event)
    (rid roast : String) (md : Metadata)
    (h : ((lambda_handler cap fs event).1).body = ResponseBody.success rid roast md) :
    md.model_used = "claude-3-5-sonnet-v2" ∧
    md.embedding_model = "titan-embed-text-v1" ∧
    chat_model_id = "us.anthropic.claude-3-5-sonnet-20241022-v2:0" ∧
    embedding_model_id = "amazon.titan-embed-text-v1" ∧
    md.model_used ≠ chat_model_id ∧
    md.embedding_model ≠ embedding_model_id := by
  obtain ⟨sb, sk, documents, ctx, hparse, hsb, hsk, hrid, hdl, hload, hne, hemb, hq, hcomp, hmd⟩ :=
    handler_success_inversion cap fs event rid roast md h
  subst hmd
  refine ⟨rfl, rfl, rfl, rfl, ?_, ?_⟩
  · show "claude-3-5-sonnet-v2" ≠ chat_model_id
    decide
  · show "titan-embed-text-v1" ≠ embedding_model_id
    decide

/-- Witness for C9: the successful `capS` run reports the fixed metadata
model strings. -/
theorem C9_metadata_model_constants_witness :
    mdS.model_used = "claude-3-5-sonnet-v2" ∧
    mdS.embedding_model = "titan-embed-text-v1" ∧
    chat_model_id = "us.anthropic.claude-3-5-sonnet-20241022-v2:0" ∧
    embedding_model_id = "amazon.titan-embed-text-v1" ∧
    mdS.model_used ≠ chat_model_id ∧
    mdS.embedding_model ≠ embedding_model_id :=
  C9_metadata_model_constants capS [] evS "r1" "roast" mdS (by decide)

/-- C10: an event without a `body` field is treated as the empty JSON
object (which `json.loads` parses to an object with no fields), and the
handler returns the 400 missing-required-fields response rather than
raising or returning a 500. -/
theorem C10_absent_body_400 (cap : Capabilities) (fs : List String)
    (hparse : cap.parse "\x7b\x7d" = ParsedBody.obj none none none) :
    lambda_handler cap fs { body := none } =
      (error_response 400 "Missing required fields: s3_bucket, s3_key, request_id", fs) := by
  unfold lambda_handler
  simp [hparse, truthy]

/-- Witness for C10: under `capEmptyObj` — whose parse maps the empty
object literal to an object with no fields, as `json.loads` does — an
event without a body yields the 400 missing-fields response. -/
theorem C10_absent_body_400_witness :
    lambda_handler capEmptyObj [] { body := none } =
      (error_response 400 "Missing required fields: s3_bucket, s3_key, request_id", []) :=
  C10_absent_body_400 capEmptyObj [] (by decide)

end RoastYourResume
